import Mathlib

/-!
# Verification of the aristoteles daily weather-export pipeline

Shallow embedding of `aristoteles/aristoteles.py`: the incremental
day-boundary export pipeline (state tracking, completeness gating,
multi-station aggregation, unit conversion, lock-marker discipline and
metrics emission).

Modelling conventions:
* Calendar days are integers (days since 1970-01-01 UTC); `2000-01-01`,
  the source's `_DAY_LIMIT`, is day 10957.
* SQLite values fetched as floats are modelled by `WVal`: either the
  NaN that `np.asarray(..., dtype=float)` produces for SQL NULL, or a
  rational number.  Python truthiness of such a value (`if data[i, j]:`)
  is `isTruthy`: `0.0` is falsy, NaN and every other number is truthy.
* The run controller `entry` is modelled from the point where
  configuration loading and per-station database connection have
  succeeded (the code exits nonzero before touching any state
  otherwise); its observable effects are gathered in `EntryResult`.
-/

namespace Aristoteles

/-- The physical type of a measurement field (the `"type"` entries of the
source's `dataset` table). -/
inductive PType where
  | pressure
  | temperature
  | percent
  | speed
  | direction
  | rate
  | amount
  deriving DecidableEq, Repr

/-- The source's `dataset` table: the fixed ordered set of measurement
columns and the physical type assigned to each field name. -/
def dataset : List (String × PType) :=
  [("barometer", .pressure),
   ("pressure", .pressure),
   ("altimeter", .pressure),
   ("inTemp", .temperature),
   ("outTemp", .temperature),
   ("inHumidity", .percent),
   ("outHumidity", .percent),
   ("windSpeed", .speed),
   ("windDir", .direction),
   ("windGust", .speed),
   ("windGustDir", .direction),
   ("rainRate", .rate),
   ("rain", .amount),
   ("dewpoint", .temperature),
   ("windchill", .temperature),
   ("heatindex", .temperature)]

/-- The source's `col_name`: the measurement column names in table order. -/
def col_name : List String := dataset.map Prod.fst

/-- A float value as it appears in a fetched row: SQL NULL becomes NaN
under `np.asarray(..., dtype=float)`; everything else is a number,
modelled as a rational. -/
inductive WVal where
  | nan
  | num (q : ℚ)
  deriving DecidableEq, Repr

/-- Python truthiness of a float: `bool(0.0) = False`, while
`bool(float("nan")) = True` and any nonzero number is `True`.  This is
the test `if data[station][i, j]:` (and `if data[station][i, 1]:`) in
the conversion loop. -/
def isTruthy : WVal → Bool
  | .nan => true
  | .num q => q != 0

/-- NaN-propagating multiplication by a constant. -/
def wMul (v : WVal) (c : ℚ) : WVal :=
  match v with
  | .nan => .nan
  | .num q => .num (q * c)

/-- The per-type conversion arithmetic of the source's imperial branch:
pressure `* 33.863886` (inHg to hPa), temperature `(v - 32.0) * 5.0 / 9.0`
(F to C), speed `* 1.609344` (mph to km/h), amount and rate `* 25.4`
(inch to mm); percent and direction have no branch and are unchanged. -/
def applyConv : PType → WVal → WVal
  | .pressure, v => wMul v 33.863886
  | .temperature, .nan => .nan
  | .temperature, .num q => .num ((q - 32) * 5 / 9)
  | .speed, v => wMul v 1.609344
  | .amount, v => wMul v 25.4
  | .rate, v => wMul v 25.4
  | .percent, v => v
  | .direction, v => v

/-- The body of the inner conversion loop for one field of one
imperial-flagged row: `if not data[station][i, j]: continue` skips falsy
values, otherwise the type-dispatched arithmetic is applied in place. -/
def convertVal (t : PType) (v : WVal) : WVal :=
  if isTruthy v then applyConv t v else v

/-- One field of one row through the conversion step: the row-level test
`if data[station][i, 1]:` (the `usUnits` flag, abstracted to a Bool) guards
the whole row; a metric row is left untouched. -/
def convertField (t : PType) (imperial : Bool) (v : WVal) : WVal :=
  if imperial then convertVal t v else v

/-- `_DAY_LIMIT`: 2000-01-01, as days since 1970-01-01. -/
def DAY_LIMIT : ℤ := 10957

/-- What the attempt to open and parse the state file can yield: the file
may be absent or unreadable (`OSError`), its content may fail to parse as
`YYYYMMDD` (`arrow.parser.ParserError`), or it parses to a calendar day. -/
inductive StateFile where
  | absent
  | unreadable
  | unparseable
  | parsed (d : ℤ)
  deriving DecidableEq, Repr

/-- The source's `read_state`: returns the parsed day, or `none` when
opening or parsing raised (`OSError`, `ParserError`).  The parsed value
is returned as-is; `read_state` performs no range validation. -/
def read_state : StateFile → Option ℤ
  | .parsed d => some d
  | _ => none

/-- The source's `write_state`: given `value`, the state file receives
`value.shift(days=1)`, i.e. the stored day is `value + 1`.  The model
returns the stored day. -/
def write_state (value : ℤ) : ℤ := value + 1

/-- How the attempt to write the metrics temp file can go: everything
succeeds; `open(path + ".new", "w")` itself raises `OSError` (so no temp
file is ever created); or a write after a successful open raises
`OSError` (the partial temp file exists on disk, closed by the `with`
block). -/
inductive MetricsWriteOutcome where
  | ok
  | openFailed
  | writeFailed
  deriving DecidableEq, Repr

/-- Inputs determining what `prom_and_exit` does besides exiting:
whether the textfile-collector directory is configured
(`"netfc_path" in conf`), how the temp-file write goes, and whether the
final `os.rename` raises `OSError`. -/
structure PromEnv where
  hasNetfcPath : Bool
  write : MetricsWriteOutcome
  renameFails : Bool
  deriving DecidableEq, Repr

/-- Observable outcome of `prom_and_exit`: the process exit code,
whether the process aborted through an uncaught exception instead of
reaching the deliberate `exit(status)`, whether a stale `.new` temp file
is left behind, and whether the final `.prom` file was replaced by the
rename. -/
structure PromOutcome where
  exitCode : ℕ
  aborted : Bool
  tempFileLeft : Bool
  promFileWritten : Bool
  deriving DecidableEq, Repr

/-- The source's `prom_and_exit`: skip everything if no collector
directory is configured; otherwise write `aristoteles.prom.new` inside a
`try`, rename it over `aristoteles.prom` in the `else:` clause, and on
`OSError` run the handler `os.unlink(path + ".new")`.  Two paths escape
the handler's intent of preserving `status`: if the `open` itself
failed, no temp file exists and the handler's `os.unlink` raises
`FileNotFoundError`, which the surrounding code does not catch, so the
interpreter aborts with exit code 1; and if `os.rename` fails, that
`OSError` is raised outside the `try` and is equally uncaught, aborting
with exit code 1 and leaving the temp file behind.  Only when the write
failure happens after a successful open does the handler unlink the
partial temp file and fall through to `exit(status)`. -/
def prom_and_exit (env : PromEnv) (status : ℕ) : PromOutcome :=
  if env.hasNetfcPath then
    match env.write with
    | .openFailed =>
      { exitCode := 1, aborted := true, tempFileLeft := false,
        promFileWritten := false }
    | .writeFailed =>
      { exitCode := status, aborted := false, tempFileLeft := false,
        promFileWritten := false }
    | .ok =>
      if env.renameFails then
        { exitCode := 1, aborted := true, tempFileLeft := true,
          promFileWritten := false }
      else
        { exitCode := status, aborted := false, tempFileLeft := false,
          promFileWritten := true }
  else
    { exitCode := status, aborted := false, tempFileLeft := false,
      promFileWritten := false }

/-- The straight-line statements of the per-day export body, in source
order: create the empty lock file, create the HDF5 file, write the
global attributes, write the index map and per-station datasets, close
the file, unlink the lock file, write the state. -/
inductive DayOp where
  | mkLock
  | openArtifact
  | writeAttrs
  | writeData
  | closeArtifact
  | rmLock
  | advanceState
  deriving DecidableEq, Repr, BEq

/-- The per-day body of the export loop as the sequence of its effects,
in the order the source executes them. -/
def dayOps : List DayOp :=
  [.mkLock, .openArtifact, .writeAttrs, .writeData, .closeArtifact,
   .rmLock, .advanceState]

/-- Filesystem-visible state while one day's body runs. -/
structure DayFS where
  lockPresent : Bool
  artifactOpened : Bool
  artifactClosed : Bool
  stateAdvanced : Bool
  deriving DecidableEq, Repr

/-- All-clear state before the day body starts. -/
def dayFS0 : DayFS :=
  { lockPresent := false, artifactOpened := false,
    artifactClosed := false, stateAdvanced := false }

/-- Effect of one statement of the day body on the filesystem state. -/
def applyDayOp : DayFS → DayOp → DayFS
  | s, .mkLock => { s with lockPresent := true }
  | s, .openArtifact => { s with artifactOpened := true }
  | s, .writeAttrs => s
  | s, .writeData => s
  | s, .closeArtifact => { s with artifactClosed := true }
  | s, .rmLock => { s with lockPresent := false }
  | s, .advanceState => { s with stateAdvanced := true }

/-- Filesystem state after the first `k` statements of the day body have
completed (a failure at statement `k` leaves exactly this state: Python
propagates the exception, executing nothing further in the process). -/
def dayExec (k : ℕ) : DayFS := (dayOps.take k).foldl applyDayOp dayFS0

/-- The command-line arguments that steer a run (already validated by
`argparse`; `day_arg` guarantees any day argument parsed). -/
structure EntryArgs where
  force : Bool
  resetState : Option ℤ
  stop : Option ℤ
  deriving DecidableEq

/-- The external world as `entry` observes it once configuration has
loaded and every station's database has opened: the configured station
names, each station's earliest record day (`SELECT dateTime FROM archive
ORDER BY dateTime LIMIT 1`, floored to a day), the current UTC day,
the state file, whether the output archive root exists, and for each
calendar day and station the number of archive rows in that day's span
(`SELECT COUNT() ... WHERE dateTime BETWEEN ? AND ?`, the same span the
row query uses). -/
structure Env where
  stations : List String
  startDay : String → ℤ
  today : ℤ
  stateFile : StateFile
  archiveExists : Bool
  countOn : ℤ → String → ℕ

/-- Observable effects of a whole run: the process exit code, the
sequence of day values stored into the state file (in order), the days
whose output artifact was created, the days whose lock marker was ever
created, the days whose lock marker is still present at run end, and the
value reported as `days_written`. -/
structure EntryResult where
  exitCode : ℕ
  stateWrites : List ℤ
  artifacts : List ℤ
  locksCreated : List ℤ
  locksLeft : List ℤ
  daysWritten : ℕ
  deriving DecidableEq, Repr

/-- A run that touches neither state file nor output tree and exits with
the given code. -/
def noRun (code : ℕ) : EntryResult :=
  { exitCode := code, stateWrites := [], artifacts := [],
    locksCreated := [], locksLeft := [], daysWritten := 0 }

/-- The calendar days `arrow.Arrow.span_range("day", a, b)` iterates:
`a, a+1, ..., b` (empty when `b < a`). -/
def dayRange (a b : ℤ) : List ℤ :=
  (List.range (b + 1 - a).toNat).map (fun i : ℕ => a + (i : ℤ))

/-- Whether any station's row query returns at least one row on day `d`
(`data[station].shape[0]` nonzero for some station). -/
def hasDataOn (env : Env) (d : ℤ) : Bool :=
  env.stations.any (fun s => env.countOn d s != 0)

/-- The completeness gate of the source: the run proceeds past the
per-station count loop iff `--force` was given or every station's count
for the boundary day equals `1440 / 5 = 288`; the first short or over
count otherwise reaches `prom_and_exit(conf, 0)`. -/
def gatePasses (force : Bool) (stations : List String)
    (countYesterday : String → ℕ) : Bool :=
  force || stations.all (fun s => countYesterday s == 288)

/-- Accumulated effects of the day loop so far. -/
structure LoopAcc where
  count : ℕ
  stateWrites : List ℤ
  artifacts : List ℤ
  locksCreated : List ℤ
  deriving DecidableEq, Repr

/-- One iteration of the day loop: if no station has data the body is a
`continue` after a log line (no lock, no file, no state write);
otherwise the day's artifact is created under its lock, the lock is
removed, `count` is incremented and `write_state(conf, start)` stores
`start + 1`. -/
def dayStep (env : Env) (acc : LoopAcc) (d : ℤ) : LoopAcc :=
  if hasDataOn env d then
    { count := acc.count + 1,
      stateWrites := acc.stateWrites ++ [write_state d],
      artifacts := acc.artifacts ++ [d],
      locksCreated := acc.locksCreated ++ [d] }
  else acc

/-- The day loop over a list of days, started from empty accumulators. -/
def runLoop (env : Env) (days : List ℤ) : LoopAcc :=
  days.foldl (dayStep env) { count := 0, stateWrites := [], artifacts := [], locksCreated := [] }

/-- The `first_day` computed inside the reset branch: start from today
and lower it to every station's start day (`if first_day >
start_day[station]: first_day = start_day[station]`). -/
def earliestStart (env : Env) : ℤ :=
  env.stations.foldl (fun a s => min a (env.startDay s)) env.today

/-- The source's `entry`, from the point where configuration and
per-station connections have succeeded (failures before that exit
nonzero without touching state or output).  Faithfully in source order:
the `--reset-state` branch; loading the state (fatal if invalid);
computing the boundary day (`--stop` or today minus one); the
nothing-to-do check `yesterday.shift(days=1) <= first_day`; the archive
existence check; the completeness gate over the boundary day; and the
day loop.  No I/O failure is modelled here (the failure behaviour of one
day's body is `dayExec`). -/
def entry (args : EntryArgs) (env : Env) : EntryResult :=
  match args.resetState with
  | some req =>
    if args.force || (read_state env.stateFile).isNone then
      let first := earliestStart env
      let v := if req < first then first else req
      { noRun 0 with stateWrites := [write_state (v - 1)] }
    else noRun 0
  | none =>
    match read_state env.stateFile with
    | none => noRun 1
    | some firstDay =>
      let yesterday := (args.stop).getD (env.today - 1)
      if yesterday + 1 ≤ firstDay then noRun 0
      else if !env.archiveExists then noRun 1
      else if !gatePasses args.force env.stations (env.countOn yesterday) then noRun 0
      else
        let acc := runLoop env (dayRange firstDay yesterday)
        { exitCode := 0, stateWrites := acc.stateWrites,
          artifacts := acc.artifacts, locksCreated := acc.locksCreated,
          locksLeft := [], daysWritten := acc.count }

/-! ## Helper lemmas -/

lemma mem_dayRange {a b d : ℤ} : d ∈ dayRange a b ↔ a ≤ d ∧ d ≤ b := by
  unfold dayRange
  rw [List.mem_map]
  constructor
  · rintro ⟨i, hi, rfl⟩
    rw [List.mem_range] at hi
    omega
  · rintro ⟨h1, h2⟩
    refine ⟨(d - a).toNat, ?_, ?_⟩
    · rw [List.mem_range]
      omega
    · omega

lemma dayRange_pairwise (a b : ℤ) : (dayRange a b).Pairwise (· < ·) := by
  unfold dayRange
  refine List.Pairwise.map _ ?_ (List.pairwise_lt_range _)
  intro x y h
  omega

lemma foldl_dayStep_from (env : Env) (days : List ℤ) (acc : LoopAcc) :
    days.foldl (dayStep env) acc =
      { count := acc.count + (days.filter (hasDataOn env)).length,
        stateWrites := acc.stateWrites ++ (days.filter (hasDataOn env)).map write_state,
        artifacts := acc.artifacts ++ days.filter (hasDataOn env),
        locksCreated := acc.locksCreated ++ days.filter (hasDataOn env) } := by
  induction days generalizing acc with
  | nil => simp
  | cons d ds ih =>
    by_cases h : hasDataOn env d
    · simp [dayStep, h, ih, List.filter_cons]
      omega
    · simp [dayStep, h, ih, List.filter_cons]

lemma runLoop_eq (env : Env) (days : List ℤ) :
    runLoop env days =
      { count := (days.filter (hasDataOn env)).length,
        stateWrites := (days.filter (hasDataOn env)).map write_state,
        artifacts := days.filter (hasDataOn env),
        locksCreated := days.filter (hasDataOn env) } := by
  simpa using foldl_dayStep_from env days
    { count := 0, stateWrites := [], artifacts := [], locksCreated := [] }

lemma foldl_min_le_init {α : Type} (l : List α) (f : α → ℤ) (a : ℤ) :
    l.foldl (fun x t => min x (f t)) a ≤ a := by
  induction l generalizing a with
  | nil => simp
  | cons t l ih => exact le_trans (ih _) (min_le_left _ _)

lemma foldl_min_le_mem {α : Type} (f : α → ℤ) {s : α} :
    ∀ (l : List α) (a : ℤ), s ∈ l → l.foldl (fun x t => min x (f t)) a ≤ f s := by
  intro l
  induction l with
  | nil =>
    intro a h
    cases h
  | cons t l ih =>
    intro a h
    rw [List.foldl_cons]
    rcases List.mem_cons.mp h with rfl | h'
    · exact le_trans (foldl_min_le_init l f _) (min_le_right _ _)
    · exact ih _ h'

lemma foldl_min_eq {α : Type} (l : List α) (f : α → ℤ) (a : ℤ) :
    l.foldl (fun x t => min x (f t)) a = a ∨
      ∃ s ∈ l, l.foldl (fun x t => min x (f t)) a = f s := by
  induction l generalizing a with
  | nil => left; rfl
  | cons t l ih =>
    rcases ih (min a (f t)) with h | ⟨s, hs, h⟩
    · rcases min_cases a (f t) with ⟨he, _⟩ | ⟨he, _⟩
      · left
        rw [List.foldl_cons, h, he]
      · right
        exact ⟨t, List.mem_cons_self _ _, by rw [List.foldl_cons, h, he]⟩
    · right
      exact ⟨s, List.mem_cons_of_mem _ hs, by rw [List.foldl_cons, h]⟩

/-- In the normal-run branch with a valid state, a nonempty range, an
existing archive and a passing completeness gate, `entry` is the result
of the day loop over the range. -/
lemma entry_loop (args : EntryArgs) (env : Env) (firstDay : ℤ)
    (hreset : args.resetState = none)
    (hstate : read_state env.stateFile = some firstDay)
    (hnoop : ¬ ((args.stop).getD (env.today - 1) + 1 ≤ firstDay))
    (harch : env.archiveExists = true)
    (hgate : gatePasses args.force env.stations
      (env.countOn ((args.stop).getD (env.today - 1))) = true) :
    entry args env =
      { exitCode := 0,
        stateWrites := ((dayRange firstDay ((args.stop).getD (env.today - 1))).filter
          (hasDataOn env)).map write_state,
        artifacts := (dayRange firstDay ((args.stop).getD (env.today - 1))).filter
          (hasDataOn env),
        locksCreated := (dayRange firstDay ((args.stop).getD (env.today - 1))).filter
          (hasDataOn env),
        locksLeft := [],
        daysWritten := ((dayRange firstDay ((args.stop).getD (env.today - 1))).filter
          (hasDataOn env)).length } := by
  unfold entry
  rw [hreset, hstate]
  simp only [hnoop, if_false, harch, Bool.not_true, Bool.false_eq_true, hgate,
    runLoop_eq]

/-- In the normal-run branch with a valid state, a nonempty range and an
existing archive, a failing completeness gate makes `entry` a no-op with
exit code 0. -/
lemma entry_gate_fail (args : EntryArgs) (env : Env) (firstDay : ℤ)
    (hreset : args.resetState = none)
    (hstate : read_state env.stateFile = some firstDay)
    (hnoop : ¬ ((args.stop).getD (env.today - 1) + 1 ≤ firstDay))
    (harch : env.archiveExists = true)
    (hgate : gatePasses args.force env.stations
      (env.countOn ((args.stop).getD (env.today - 1))) = false) :
    entry args env = noRun 0 := by
  unfold entry
  rw [hreset, hstate]
  simp only [hnoop, if_false, harch, Bool.not_true, Bool.false_eq_true, hgate,
    Bool.not_false, if_true]

/-! ## Claims -/

/-- C3, counterexample to the claim as stated: a state file parsing to
1999-12-31 (day `DAY_LIMIT - 1`, strictly below the year-2000 floor) is
not treated as "no valid state" — `read_state` returns the day as-is
instead of nothing.  The epoch-floor/now validation exists only in
`day_arg`, the command-line argument checker. -/
theorem C3_counterexample :
    DAY_LIMIT - 1 < DAY_LIMIT ∧
    read_state (StateFile.parsed (DAY_LIMIT - 1)) ≠ none ∧
    read_state (StateFile.parsed (DAY_LIMIT - 1)) = some (DAY_LIMIT - 1) :=
  ⟨by decide, by decide, rfl⟩

/-- C3 (amended): `read_state` returns nothing exactly when the state
file is absent, unreadable, or unparseable; a successfully parsed day is
returned unchanged, with no range validation against the year-2000 epoch
floor or the current time. -/
theorem C3_theorem :
    read_state .absent = none ∧
    read_state .unreadable = none ∧
    read_state .unparseable = none ∧
    ∀ d : ℤ, read_state (.parsed d) = some d :=
  ⟨rfl, rfl, rfl, fun _ => rfl⟩

/-- C4, counterexample to the claim as stated: the source multiplies
pressure by `33.863886` and speed by `1.609344`, not by the claimed
`33.86389` and `1.60934`; already at an imperial reading of `1.0` the
produced values differ from the claimed ones. -/
theorem C4_counterexample :
    convertField .pressure true (.num 1) ≠ WVal.num (33.86389 : ℚ) ∧
    convertField .speed true (.num 1) ≠ WVal.num (1.60934 : ℚ) := by
  constructor
  · simp only [convertField, convertVal, isTruthy, applyConv, wMul, if_true]
    norm_num
  · simp only [convertField, convertVal, isTruthy, applyConv, wMul, if_true]
    norm_num

/-- C4 (amended): for every row whose unit-system flag is nonzero
(imperial), each present measurement value is converted according to its
field's physical type — pressure multiplied by `33.863886`, temperature
mapped to `(value - 32.0) * 5.0 / 9.0`, speed multiplied by `1.609344`,
amount and rate multiplied by `25.4`, percent and direction unchanged —
and every value is returned unchanged when the flag is zero (metric) or
the value is the absent sentinel (falsy `0.0`, and NaN is preserved by
the arithmetic). -/
theorem C4_theorem (t : PType) (v : WVal) (q : ℚ) :
    convertField t false v = v ∧
    convertField t true .nan = .nan ∧
    convertField t true (.num 0) = .num 0 ∧
    convertField .pressure true (.num q) =
      (if q = 0 then .num q else .num (q * 33.863886)) ∧
    convertField .temperature true (.num q) =
      (if q = 0 then .num q else .num ((q - 32) * 5 / 9)) ∧
    convertField .speed true (.num q) =
      (if q = 0 then .num q else .num (q * 1.609344)) ∧
    convertField .amount true (.num q) =
      (if q = 0 then .num q else .num (q * 25.4)) ∧
    convertField .rate true (.num q) =
      (if q = 0 then .num q else .num (q * 25.4)) ∧
    convertField .percent true (.num q) = .num q ∧
    convertField .direction true (.num q) = .num q := by
  by_cases hq : q = 0 <;>
    cases t <;>
      simp [convertField, convertVal, isTruthy, applyConv, wMul, hq]

/-- C10 (confirmed): the conversion step tests field absence by numeric
falsiness — in an imperial-flagged row a raw value of exactly `0.0` is
left unconverted (a temperature of 0.0 F stays 0.0 instead of becoming
`(0 - 32) * 5 / 9 = -160/9 ≈ -17.78` C), while a missing value stored as
NaN (what `np.asarray(..., dtype=float)` makes of SQL NULL) is truthy
and is passed through the conversion arithmetic rather than skipped. -/
theorem C10_theorem :
    isTruthy (WVal.num 0) = false ∧
    (∀ t : PType, convertField t true (.num 0) = .num 0) ∧
    applyConv .temperature (.num 0) = .num (-160 / 9) ∧
    isTruthy WVal.nan = true ∧
    (∀ t : PType, convertVal t .nan = applyConv t .nan) := by
  refine ⟨rfl, fun t => ?_, ?_, rfl, fun t => rfl⟩
  · simp [convertField, convertVal, isTruthy]
  · simp only [applyConv, WVal.num.injEq]
    norm_num

/-- The C9 failing input: collector directory configured, and the
`open` of the `.new` temp file itself raises `OSError`. -/
def C9openFail : PromEnv :=
  { hasNetfcPath := true, write := .openFailed, renameFails := false }

/-- A C9 failing input: the write succeeds but `os.rename` raises. -/
def C9renameFail : PromEnv :=
  { hasNetfcPath := true, write := .ok, renameFails := true }

/-- The one metrics-failure input the cleanup handler really covers: a
write failing after a successful `open`. -/
def C9writeFail : PromEnv :=
  { hasNetfcPath := true, write := .writeFailed, renameFails := false }

/-- C9 (code bug): the claim — a metrics write failure never changes
the exit code or aborts the run, with the partial temp output removed —
matches the function's own docstring ("Write aristoteles.prom ... and
then exit with status") and the intent of its `try`/`except OSError`
cleanup, but the code achieves it only when the failure happens after
the temp file was successfully opened.  If `open(path + ".new", "w")`
itself fails (e.g. the collector directory is missing), the handler's
`os.unlink` on the never-created temp file raises an uncaught
`FileNotFoundError` and the process aborts with exit code 1 instead of
the run's real status; if `os.rename` fails, the uncaught `OSError`
aborts the run and leaves the `.new` temp file behind. -/
theorem C9_theorem (status : ℕ) :
    (prom_and_exit C9openFail status).aborted = true ∧
    (prom_and_exit C9openFail status).exitCode = 1 ∧
    (prom_and_exit C9openFail 0).exitCode ≠ 0 ∧
    (prom_and_exit C9renameFail status).aborted = true ∧
    (prom_and_exit C9renameFail status).tempFileLeft = true ∧
    (prom_and_exit C9writeFail status).exitCode = status ∧
    (prom_and_exit C9writeFail status).tempFileLeft = false ∧
    (prom_and_exit C9writeFail status).aborted = false :=
  ⟨rfl, rfl, by decide, rfl, rfl, rfl, rfl, rfl⟩

/-- C7 (confirmed): in the per-day export body `dayOps`, the lock marker
is created before the artifact is opened or any attribute/data write
happens, and it is removed only after the artifact is closed; if the
body fails after `k` completed statements for any `1 ≤ k ≤ 4` (i.e.
during opening, writing or finalizing), the lock marker is still present
and the resume state has not been advanced. -/
theorem C7_theorem (k : ℕ) (h1 : 1 ≤ k) (h2 : k ≤ 4) :
    dayOps.indexOf .mkLock < dayOps.indexOf .openArtifact ∧
    dayOps.indexOf .mkLock < dayOps.indexOf .writeAttrs ∧
    dayOps.indexOf .mkLock < dayOps.indexOf .writeData ∧
    dayOps.indexOf .writeData < dayOps.indexOf .closeArtifact ∧
    dayOps.indexOf .closeArtifact < dayOps.indexOf .rmLock ∧
    (dayExec k).lockPresent = true ∧
    (dayExec k).stateAdvanced = false := by
  interval_cases k <;> decide

/-- Witness for C7 at `k = 3`: a failure while writing the per-station
datasets leaves the lock marker present and the state unadvanced. -/
theorem C7_witness :
    (1 ≤ 3 ∧ 3 ≤ 4) ∧
    (dayOps.indexOf .mkLock < dayOps.indexOf .openArtifact ∧
     dayOps.indexOf .mkLock < dayOps.indexOf .writeAttrs ∧
     dayOps.indexOf .mkLock < dayOps.indexOf .writeData ∧
     dayOps.indexOf .writeData < dayOps.indexOf .closeArtifact ∧
     dayOps.indexOf .closeArtifact < dayOps.indexOf .rmLock ∧
     (dayExec 3).lockPresent = true ∧
     (dayExec 3).stateAdvanced = false) :=
  ⟨by decide, C7_theorem 3 (by decide) (by decide)⟩

/-- Concrete run for C2: resume day 0 and explicit stop day 0, one
station with complete data everywhere. -/
def C2args : EntryArgs := { force := false, resetState := none, stop := some 0 }

/-- Environment for the C2 counterexample. -/
def C2env : Env :=
  { stations := ["wx"], startDay := fun _ => 0, today := 5,
    stateFile := .parsed 0, archiveExists := true, countOn := fun _ _ => 288 }

/-- C2, counterexample to the claim as stated: with resume day `R = 0`
and explicit stop day `E = 0` (so `E ≤ R`), the run does not terminate
with zero days processed — it exports day 0, creating one artifact and
advancing the state.  The source's no-op test is
`yesterday.shift(days=1) <= first_day`, i.e. `E` strictly before `R`. -/
theorem C2_counterexample :
    (0 : ℤ) ≤ 0 ∧
    entry C2args C2env =
      { exitCode := 0, stateWrites := [1], artifacts := [0],
        locksCreated := [0], locksLeft := [], daysWritten := 1 } :=
  ⟨le_refl 0, by decide⟩

/-- C2 (amended): for every resume day `R` and end day `E` (the explicit
stop day if given, else yesterday), if `E` is strictly before `R`
(equivalently `E + 1 ≤ R`) then the run terminates successfully with
exit code 0, zero days processed, and no output or state written.  (When
`E = R` the run instead processes exactly day `R`.) -/
theorem C2_theorem (args : EntryArgs) (env : Env) (firstDay : ℤ)
    (hreset : args.resetState = none)
    (hstate : read_state env.stateFile = some firstDay)
    (hend : (args.stop).getD (env.today - 1) < firstDay) :
    entry args env = noRun 0 ∧
    (entry args env).exitCode = 0 ∧
    (entry args env).daysWritten = 0 ∧
    (entry args env).artifacts = [] ∧
    (entry args env).stateWrites = [] := by
  have h : entry args env = noRun 0 := by
    unfold entry
    rw [hreset, hstate]
    have h1 : (args.stop).getD (env.today - 1) + 1 ≤ firstDay := by omega
    simp only [h1, if_true]
  exact ⟨h, by rw [h]; rfl, by rw [h]; rfl, by rw [h]; rfl, by rw [h]; rfl⟩

/-- Environment for the C2 witness: resume day 3, stop day 0. -/
def C2wenv : Env :=
  { stations := ["wx"], startDay := fun _ => 0, today := 5,
    stateFile := .parsed 3, archiveExists := true, countOn := fun _ _ => 288 }

/-- Witness for C2: stop day 0 is strictly before resume day 3, and the
run is a no-op with exit code 0. -/
theorem C2_witness :
    (C2args.resetState = none ∧
     read_state C2wenv.stateFile = some 3 ∧
     (C2args.stop).getD (C2wenv.today - 1) < 3) ∧
    (entry C2args C2wenv = noRun 0 ∧
     (entry C2args C2wenv).exitCode = 0 ∧
     (entry C2args C2wenv).daysWritten = 0 ∧
     (entry C2args C2wenv).artifacts = [] ∧
     (entry C2args C2wenv).stateWrites = []) :=
  ⟨⟨rfl, rfl, by decide⟩, C2_theorem C2args C2wenv 3 rfl rfl (by decide)⟩

/-- Concrete run for C1: resume day 0, stop day 1, forced. -/
def C1args : EntryArgs := { force := true, resetState := none, stop := some 1 }

/-- Environment for C1: day 0 has a complete 288-row day at the one
station, day 1 (and every other day) has zero rows. -/
def C1env : Env :=
  { stations := ["wx"], startDay := fun _ => 0, today := 5,
    stateFile := .parsed 0, archiveExists := true,
    countOn := fun d _ => if d = 0 then 288 else 0 }

/-- C1, counterexample to the claim as stated: day 1 is in the export
range and has zero rows at every station; the run exits 0 and creates no
artifact or lock for day 1, but the persisted resume state ends at 1
(written when day 0 was exported), which is NOT past day 1 — the
skipped day triggers no state write at all (`continue` precedes
`write_state`). -/
theorem C1_counterexample :
    hasDataOn C1env 1 = false ∧
    (1 : ℤ) ∈ dayRange 0 ((C1args.stop).getD (C1env.today - 1)) ∧
    entry C1args C1env =
      { exitCode := 0, stateWrites := [1], artifacts := [0],
        locksCreated := [0], locksLeft := [], daysWritten := 1 } ∧
    ¬ (1 + 1 ≤ (1 : ℤ)) :=
  ⟨by decide, by decide, by decide, by decide⟩

/-- C1 (amended): for every day in the export range on which every
configured station's row query returns zero rows, the run creates no
output artifact and no lock marker for that day and reports it without
error (exit code 0), but performs no resume-state write for that day:
the sequence of state writes is exactly the data-bearing days each
advanced by one, so the state moves past a zero-row day only when a
later day in the range is exported. -/
theorem C1_theorem (args : EntryArgs) (env : Env) (firstDay d : ℤ)
    (hreset : args.resetState = none)
    (hstate : read_state env.stateFile = some firstDay)
    (harch : env.archiveExists = true)
    (hgate : gatePasses args.force env.stations
      (env.countOn ((args.stop).getD (env.today - 1))) = true)
    (hd : d ∈ dayRange firstDay ((args.stop).getD (env.today - 1)))
    (hnodata : hasDataOn env d = false) :
    d ∉ (entry args env).artifacts ∧
    d ∉ (entry args env).locksCreated ∧
    (entry args env).locksLeft = [] ∧
    (entry args env).exitCode = 0 ∧
    write_state d ∉ (entry args env).stateWrites ∧
    (entry args env).stateWrites =
      ((dayRange firstDay ((args.stop).getD (env.today - 1))).filter
        (hasDataOn env)).map write_state := by
  have hnoop : ¬ ((args.stop).getD (env.today - 1) + 1 ≤ firstDay) := by
    have := mem_dayRange.mp hd
    omega
  have h := entry_loop args env firstDay hreset hstate hnoop harch hgate
  rw [h]
  have hnot : d ∉ (dayRange firstDay ((args.stop).getD (env.today - 1))).filter
      (hasDataOn env) := by
    intro hmem
    have := (List.mem_filter.mp hmem).2
    rw [hnodata] at this
    cases this
  refine ⟨hnot, hnot, rfl, rfl, ?_, rfl⟩
  intro hmem
  rw [List.mem_map] at hmem
  obtain ⟨d', hd', he⟩ := hmem
  have hdd : d' = d := by
    unfold write_state at he
    omega
  subst hdd
  exact hnot hd'

/-- Witness for C1 at the concrete run of `C1env`: day 1 has zero rows,
produces nothing, and gets no state write. -/
theorem C1_witness :
    (C1args.resetState = none ∧
     read_state C1env.stateFile = some 0 ∧
     C1env.archiveExists = true ∧
     gatePasses C1args.force C1env.stations
       (C1env.countOn ((C1args.stop).getD (C1env.today - 1))) = true ∧
     (1 : ℤ) ∈ dayRange 0 ((C1args.stop).getD (C1env.today - 1)) ∧
     hasDataOn C1env 1 = false) ∧
    ((1 : ℤ) ∉ (entry C1args C1env).artifacts ∧
     (1 : ℤ) ∉ (entry C1args C1env).locksCreated ∧
     (entry C1args C1env).locksLeft = [] ∧
     (entry C1args C1env).exitCode = 0 ∧
     write_state 1 ∉ (entry C1args C1env).stateWrites ∧
     (entry C1args C1env).stateWrites =
       ((dayRange 0 ((C1args.stop).getD (C1env.today - 1))).filter
         (hasDataOn C1env)).map write_state) :=
  ⟨⟨rfl, rfl, rfl, by decide, by decide, by decide⟩,
   C1_theorem C1args C1env 0 1 rfl rfl rfl (by decide) (by decide) (by decide)⟩

lemma all_congr_of_mem {α : Type} {l : List α} {p q : α → Bool}
    (h : ∀ x ∈ l, p x = q x) : l.all p = l.all q := by
  induction l with
  | nil => rfl
  | cons a l ih =>
    simp only [List.all_cons, h a (List.mem_cons_self a l),
      ih fun x hx => h x (List.mem_cons_of_mem a hx)]

/-- C5 (confirmed): the completeness gate is evaluated before any export
and against the boundary (end) day only — its verdict is a function of
the per-station counts for that day alone; export of the entire range
proceeds iff every station reports exactly 288 records for the end day
or the force flag is given; otherwise the run terminates with exit code
0 having exported nothing and written no state. -/
theorem C5_theorem (args : EntryArgs) (env : Env) (firstDay : ℤ)
    (hreset : args.resetState = none)
    (hstate : read_state env.stateFile = some firstDay)
    (hnoop : ¬ ((args.stop).getD (env.today - 1) + 1 ≤ firstDay))
    (harch : env.archiveExists = true) :
    (gatePasses args.force env.stations
        (env.countOn ((args.stop).getD (env.today - 1))) = true ↔
      args.force = true ∨
        ∀ s ∈ env.stations,
          env.countOn ((args.stop).getD (env.today - 1)) s = 288) ∧
    (gatePasses args.force env.stations
        (env.countOn ((args.stop).getD (env.today - 1))) = false →
      entry args env = noRun 0) ∧
    (gatePasses args.force env.stations
        (env.countOn ((args.stop).getD (env.today - 1))) = true →
      (entry args env).exitCode = 0 ∧
      (entry args env).artifacts =
        (dayRange firstDay ((args.stop).getD (env.today - 1))).filter
          (hasDataOn env)) ∧
    (∀ counts' : String → ℕ,
      (∀ s ∈ env.stations,
        counts' s = env.countOn ((args.stop).getD (env.today - 1)) s) →
      gatePasses args.force env.stations counts' =
        gatePasses args.force env.stations
          (env.countOn ((args.stop).getD (env.today - 1)))) := by
  refine ⟨?_, ?_, ?_, ?_⟩
  · simp [gatePasses, List.all_eq_true]
  · intro hg
    exact entry_gate_fail args env firstDay hreset hstate hnoop harch hg
  · intro hg
    rw [entry_loop args env firstDay hreset hstate hnoop harch hg]
    exact ⟨rfl, rfl⟩
  · intro counts' hc
    unfold gatePasses
    rw [all_congr_of_mem fun s hs => by rw [hc s hs]]

/-- Arguments for the C5 witness: no force, stop day 1. -/
def C5args : EntryArgs := { force := false, resetState := none, stop := some 1 }

/-- Environment for the C5 witness: a complete boundary day. -/
def C5env : Env :=
  { stations := ["wx"], startDay := fun _ => 0, today := 5,
    stateFile := .parsed 0, archiveExists := true, countOn := fun _ _ => 288 }

/-- Witness for C5 at the concrete run of `C5env`. -/
theorem C5_witness :
    (C5args.resetState = none ∧
     read_state C5env.stateFile = some 0 ∧
     ¬ ((C5args.stop).getD (C5env.today - 1) + 1 ≤ 0) ∧
     C5env.archiveExists = true) ∧
    ((gatePasses C5args.force C5env.stations
        (C5env.countOn ((C5args.stop).getD (C5env.today - 1))) = true ↔
      C5args.force = true ∨
        ∀ s ∈ C5env.stations,
          C5env.countOn ((C5args.stop).getD (C5env.today - 1)) s = 288) ∧
     (gatePasses C5args.force C5env.stations
        (C5env.countOn ((C5args.stop).getD (C5env.today - 1))) = false →
      entry C5args C5env = noRun 0) ∧
     (gatePasses C5args.force C5env.stations
        (C5env.countOn ((C5args.stop).getD (C5env.today - 1))) = true →
      (entry C5args C5env).exitCode = 0 ∧
      (entry C5args C5env).artifacts =
        (dayRange 0 ((C5args.stop).getD (C5env.today - 1))).filter
          (hasDataOn C5env)) ∧
     (∀ counts' : String → ℕ,
      (∀ s ∈ C5env.stations,
        counts' s = C5env.countOn ((C5args.stop).getD (C5env.today - 1)) s) →
      gatePasses C5args.force C5env.stations counts' =
        gatePasses C5args.force C5env.stations
          (C5env.countOn ((C5args.stop).getD (C5env.today - 1))))) :=
  ⟨⟨rfl, rfl, by decide, rfl⟩,
   C5_theorem C5args C5env 0 rfl rfl (by decide) rfl⟩

/-- The `--reset-state` branch of `entry` in closed form. -/
lemma entry_reset (args : EntryArgs) (env : Env) (req : ℤ)
    (hreq : args.resetState = some req) :
    entry args env =
      (if args.force || (read_state env.stateFile).isNone then
        { noRun 0 with stateWrites :=
            [write_state
              ((if req < earliestStart env then earliestStart env else req) - 1)] }
      else noRun 0) := by
  unfold entry
  rw [hreq]

/-- C6 (confirmed): a reset request takes effect only when no valid
state exists or the force flag is given (otherwise nothing is written);
when it takes effect, the stored resume state is the requested day
clamped upward to the earliest record across all configured stations
(assuming, as always holds for past records, that each station's
earliest day is not in the future); and in every case the reset run
terminates with exit code 0 without exporting any data. -/
theorem C6_theorem (args : EntryArgs) (env : Env) (req : ℤ)
    (hreq : args.resetState = some req)
    (hle : ∀ s ∈ env.stations, env.startDay s ≤ env.today)
    (hne : env.stations ≠ []) :
    (entry args env).exitCode = 0 ∧
    (entry args env).artifacts = [] ∧
    (entry args env).locksCreated = [] ∧
    (entry args env).daysWritten = 0 ∧
    ((args.force || (read_state env.stateFile).isNone) = false →
      (entry args env).stateWrites = []) ∧
    ((args.force || (read_state env.stateFile).isNone) = true →
      (∃ s ∈ env.stations, earliestStart env = env.startDay s) ∧
      (∀ s ∈ env.stations, earliestStart env ≤ env.startDay s) ∧
      (req < earliestStart env →
        (entry args env).stateWrites = [earliestStart env]) ∧
      (¬ req < earliestStart env →
        (entry args env).stateWrites = [req])) := by
  have hE1 : ∀ s ∈ env.stations, earliestStart env ≤ env.startDay s :=
    fun s hs => foldl_min_le_mem env.startDay env.stations env.today hs
  have hE2 : ∃ s ∈ env.stations, earliestStart env = env.startDay s := by
    rcases foldl_min_eq env.stations env.startDay env.today with h | ⟨s, hs, h⟩
    · obtain ⟨s0, hs0⟩ := List.exists_mem_of_ne_nil env.stations hne
      refine ⟨s0, hs0, le_antisymm (hE1 s0 hs0) ?_⟩
      have : earliestStart env = env.today := h
      rw [this]
      exact hle s0 hs0
    · exact ⟨s, hs, h⟩
  have hw : ∀ z : ℤ, write_state (z - 1) = z := by
    intro z
    unfold write_state
    omega
  rw [entry_reset args env req hreq]
  by_cases hcond : (args.force || (read_state env.stateFile).isNone) = true
  · rw [if_pos hcond]
    refine ⟨rfl, rfl, rfl, rfl, ?_, ?_⟩
    · intro hfalse
      rw [hcond] at hfalse
      cases hfalse
    · intro _
      refine ⟨hE2, hE1, ?_, ?_⟩
      · intro hlt
        show [write_state ((if req < earliestStart env then earliestStart env
          else req) - 1)] = [earliestStart env]
        rw [if_pos hlt, hw]
      · intro hge
        show [write_state ((if req < earliestStart env then earliestStart env
          else req) - 1)] = [req]
        rw [if_neg hge, hw]
  · rw [if_neg hcond]
    refine ⟨rfl, rfl, rfl, rfl, fun _ => rfl, ?_⟩
    intro htrue
    exact absurd htrue hcond

/-- Arguments for the C6 witness: forced reset to day 3. -/
def C6args : EntryArgs := { force := true, resetState := some 3, stop := none }

/-- Environment for the C6 witness: two stations whose earliest records
are days 7 and 9, and an existing (valid) state. -/
def C6env : Env :=
  { stations := ["wx", "yz"],
    startDay := fun s => if s = "wx" then 7 else 9, today := 20,
    stateFile := .parsed 4, archiveExists := true, countOn := fun _ _ => 288 }

/-- Witness for C6: requesting day 3, earlier than the earliest record
(day 7), stores day 7; the run exits 0 with no export. -/
theorem C6_witness :
    (C6args.resetState = some 3 ∧
     (∀ s ∈ C6env.stations, C6env.startDay s ≤ C6env.today) ∧
     C6env.stations ≠ []) ∧
    ((entry C6args C6env).exitCode = 0 ∧
     (entry C6args C6env).artifacts = [] ∧
     (entry C6args C6env).locksCreated = [] ∧
     (entry C6args C6env).daysWritten = 0 ∧
     ((C6args.force || (read_state C6env.stateFile).isNone) = false →
      (entry C6args C6env).stateWrites = []) ∧
     ((C6args.force || (read_state C6env.stateFile).isNone) = true →
      (∃ s ∈ C6env.stations, earliestStart C6env = C6env.startDay s) ∧
      (∀ s ∈ C6env.stations, earliestStart C6env ≤ C6env.startDay s) ∧
      ((3 : ℤ) < earliestStart C6env →
        (entry C6args C6env).stateWrites = [earliestStart C6env]) ∧
      (¬ (3 : ℤ) < earliestStart C6env →
        (entry C6args C6env).stateWrites = [3]))) :=
  ⟨⟨rfl, by decide, by decide⟩,
   C6_theorem C6args C6env 3 rfl (by decide) (by decide)⟩

/-- C8 (confirmed): for a run that reaches the export loop, the sequence
of persisted resume values is exactly the exported days each advanced by
one (`write_state` stores `day + 1`), written only after the day's
artifact is finalized (`advanceState` comes after `closeArtifact` and
`rmLock` in `dayOps`); prefixed with the initial resume day the sequence
is strictly increasing — the resume day never decreases — and its last
element, the state at run end, equals the last successfully exported day
plus one. -/
theorem C8_theorem (args : EntryArgs) (env : Env) (firstDay : ℤ)
    (hreset : args.resetState = none)
    (hstate : read_state env.stateFile = some firstDay)
    (hnoop : ¬ ((args.stop).getD (env.today - 1) + 1 ≤ firstDay))
    (harch : env.archiveExists = true)
    (hgate : gatePasses args.force env.stations
      (env.countOn ((args.stop).getD (env.today - 1))) = true) :
    (entry args env).stateWrites = (entry args env).artifacts.map write_state ∧
    List.Pairwise (· < ·) (firstDay :: (entry args env).stateWrites) ∧
    (entry args env).stateWrites.getLast? =
      ((entry args env).artifacts.getLast?).map write_state ∧
    dayOps.indexOf .closeArtifact < dayOps.indexOf .advanceState ∧
    dayOps.indexOf .rmLock < dayOps.indexOf .advanceState := by
  rw [entry_loop args env firstDay hreset hstate hnoop harch hgate]
  refine ⟨rfl, ?_, List.getLast?_map _ _, by decide, by decide⟩
  show List.Pairwise (· < ·) (firstDay ::
    ((dayRange firstDay ((args.stop).getD (env.today - 1))).filter
      (hasDataOn env)).map write_state)
  rw [List.pairwise_cons]
  constructor
  · intro b hb
    rw [List.mem_map] at hb
    obtain ⟨d, hd, rfl⟩ := hb
    have hd' := (List.mem_filter.mp hd).1
    have := (mem_dayRange.mp hd').1
    unfold write_state
    omega
  · rw [List.pairwise_map]
    refine List.Pairwise.imp ?_
      (((dayRange_pairwise firstDay ((args.stop).getD (env.today - 1))).filter
        (hasDataOn env)))
    intro a b hab
    unfold write_state
    omega

/-- Arguments for the C8 witness: stop day 1, no force. -/
def C8args : EntryArgs := { force := false, resetState := none, stop := some 1 }

/-- Environment for the C8 witness: complete data on every day. -/
def C8env : Env :=
  { stations := ["wx"], startDay := fun _ => 0, today := 5,
    stateFile := .parsed 0, archiveExists := true, countOn := fun _ _ => 288 }

/-- Witness for C8: days 0 and 1 are exported; the state writes are
`[1, 2]`, strictly increasing from resume day 0 and ending at the last
exported day plus one. -/
theorem C8_witness :
    (C8args.resetState = none ∧
     read_state C8env.stateFile = some 0 ∧
     ¬ ((C8args.stop).getD (C8env.today - 1) + 1 ≤ 0) ∧
     C8env.archiveExists = true ∧
     gatePasses C8args.force C8env.stations
       (C8env.countOn ((C8args.stop).getD (C8env.today - 1))) = true) ∧
    ((entry C8args C8env).stateWrites =
      (entry C8args C8env).artifacts.map write_state ∧
     List.Pairwise (· < ·) ((0 : ℤ) :: (entry C8args C8env).stateWrites) ∧
     (entry C8args C8env).stateWrites.getLast? =
      ((entry C8args C8env).artifacts.getLast?).map write_state ∧
     dayOps.indexOf .closeArtifact < dayOps.indexOf .advanceState ∧
     dayOps.indexOf .rmLock < dayOps.indexOf .advanceState) :=
  ⟨⟨rfl, rfl, by decide, rfl, by decide⟩,
   C8_theorem C8args C8env 0 rfl rfl (by decide) rfl (by decide)⟩

end Aristoteles
